import Mathlib

/-!
Verification of the tipup result-demultiplexing pipeline.

Shallow embedding of `src/main.rs` (`load_analyzers`, `fetch_results`, the
startup portion of `main`) and `src/analyzer/error_analyzer.rs`
(`ErrorAnalyzer::new`, `ErrorAnalyzer::add_result`).

The repository modules `demultiplexor.rs`, `error.rs`, `flag_manager.rs` and
`analyzer/bayesian_analyzer.rs` are not part of the provided sources; the few
pieces of them the embedded code touches (`Demultiplexor::new`,
`Demultiplexor::add_analyzer`, `Demultiplexor::send_result`,
`TipupError::from`, `BayesianAnalyzer::new`) are modelled from the spec and
marked as such, or left abstract (`BayesianAnalyzer::new` is a parameter of
the load model).

MongoDB is an external collaborator: the `distinct`, `find_one` and `find`
calls are modelled by their standard semantics over an in-memory list of
documents.  A Rust `panic!` (including `unimplemented!()`) is modelled as an
explicit `panicked` outcome constructor, distinct from an `Err` return.
-/

namespace Tipup

/-- BSON values, restricted to the variants the embedded code distinguishes
(`Bson::String`, `Bson::I64`, `Bson::Array`); `boolean` stands for any other
BSON variant, which every embedded `match` sends to its catch-all arm. -/
inductive Bson where
  | string : String → Bson
  | i64 : Int → Bson
  | boolean : Bool → Bson
  | array : List Bson → Bson

/-- `bson::ordered::OrderedDocument`: an ordered list of key/value pairs. -/
def OrderedDocument : Type := List (String × Bson)

/-- `OrderedDocument::get`: the value of the first pair with the given key. -/
def docGet (d : OrderedDocument) (k : String) : Option Bson :=
  match d with
  | [] => none
  | (k', v) :: rest => if k' = k then some v else docGet rest k

/-- `error.rs` is not among the provided sources; modelled from the spec as an
error value built from a descriptive message (`TipupError::from`). -/
structure TipupError where
  msg : String

/-- Outcome of invoking an analyzer or the demultiplexor: an `Ok` return, an
`Err` return, or a Rust panic (process abort). -/
inductive Invoke where
  | ok : Invoke
  | err : TipupError → Invoke
  | panicked : String → Invoke

/-- An `std::sync::mpsc::Sender` producer handle, identified by which clone of
the original channel handle it is; the embedded code only stores and clones
it, never sends through it. -/
structure Sender (α : Type) where
  id : Nat

/-- `flag_manager.rs` is not among the provided sources; the embedded code
only moves `Flag` values around, so the type is abstract. -/
inductive Flag where
  | mk : Flag

/-- `ErrorAnalyzer` (error_analyzer.rs:9-11): holds only the flag-channel
producer handle. -/
structure ErrorAnalyzer where
  tx : Sender Flag

/-- `ErrorAnalyzer::new` (error_analyzer.rs:14-20): ignores the parameter
document and always succeeds. -/
def ErrorAnalyzer.new (_params : OrderedDocument) (tx : Sender Flag) :
    Except TipupError ErrorAnalyzer :=
  .ok { tx := tx }

/-- `ErrorAnalyzer::add_result` (error_analyzer.rs:24-26): the body is
`unimplemented!()`, a macro that panics with a "not implemented" message. -/
def ErrorAnalyzer.add_result (_a : ErrorAnalyzer) : Invoke :=
  .panicked "not implemented"

/-- One entry of the demultiplexor registry: a registration name, the
measurement routing key, and the analyzer's `add_result` behaviour (the
document being routed is passed to it; `ErrorAnalyzer::add_result` ignores
it, as its source takes no document argument). -/
structure Registration where
  name : String
  measurement : String
  analyzer : OrderedDocument → Invoke

/-- Modelled from the spec: `demultiplexor.rs` is not among the provided
sources.  The demultiplexor owns the registry mapping measurement names to
the analyzers registered for them. -/
structure Demultiplexor where
  registry : List Registration

/-- Modelled from the spec: `Demultiplexor::add_analyzer` registers the
analyzer under the measurement and fails on a duplicate
`(name, measurement)` registration. -/
def addAnalyzer (dm : Demultiplexor) (name measurement : String)
    (a : OrderedDocument → Invoke) : Except TipupError Demultiplexor :=
  if dm.registry.any (fun r => r.name == name && r.measurement == measurement) then
    .error ⟨"duplicate analyzer registration"⟩
  else
    .ok ⟨dm.registry ++ [⟨name, measurement, a⟩]⟩

/-- Modelled from the spec: the registrations whose measurement equals the
document's `measurement` field. -/
def matchedRegs (dm : Demultiplexor) (doc : OrderedDocument) : List Registration :=
  dm.registry.filter (fun r =>
    match docGet doc "measurement" with
    | some (.string m) => r.measurement == m
    | _ => false)

/-- Modelled from the spec: invoke each matched analyzer in registry order; a
failing analyzer does not prevent invocation of the remaining ones, and the
first failure is reported to the caller; a panicking analyzer aborts
immediately (Rust unwind). -/
def invokeAll (doc : OrderedDocument) :
    List Registration → Option TipupError → Invoke
  | [], none => .ok
  | [], some e => .err e
  | r :: rest, firstErr =>
    match r.analyzer doc with
    | .ok => invokeAll doc rest firstErr
    | .err e => invokeAll doc rest (firstErr.orElse fun _ => some e)
    | .panicked m => .panicked m

/-- Modelled from the spec: `Demultiplexor::send_result` routes the document
to every registration matching its measurement; no match is a no-op. -/
def sendResult (dm : Demultiplexor) (doc : OrderedDocument) : Invoke :=
  invokeAll doc (matchedRegs dm doc) none

/-- One iteration of the `load_analyzers` loop body (main.rs:112-142): parse
`name`, `class`, `measurement`, `parameters` from the analyzer definition
document, construct the analyzer selected by `class` (unknown classes are an
error), and register it.  `bayesNew` stands for `BayesianAnalyzer::new`,
whose source (`bayesian_analyzer.rs`) is not provided and is left abstract.
The source passes the BSON `parameters` array to `ErrorAnalyzer::new`, whose
signature expects a document; the constructor ignores the argument entirely,
so it is adapted here by pairing each value with an empty key. -/
def loadAnalyzer
    (bayesNew : List Bson → Sender Flag → Except TipupError (OrderedDocument → Invoke))
    (tx : Sender Flag) (dm : Demultiplexor) (document : OrderedDocument) :
    Except TipupError Demultiplexor :=
  match docGet document "name" with
  | some (.string name) =>
    match docGet document "class" with
    | some (.string cls) =>
      match docGet document "measurement" with
      | some (.string measurement) =>
        match docGet document "parameters" with
        | some (.array parameters) =>
          if cls = "BayesianAnalyzer" then
            (bayesNew parameters tx).bind fun a => addAnalyzer dm name measurement a
          else if cls = "ErrorAnalyzer" then
            (ErrorAnalyzer.new (parameters.map fun b => ("", b)) tx).bind fun a =>
              addAnalyzer dm name measurement (fun _ => a.add_result)
          else .error ⟨"unknown analyzer class"⟩
        | _ => .error ⟨"failed to parse analyzer parameters"⟩
      | _ => .error ⟨"failed to parse analyzer measurement"⟩
    | _ => .error ⟨"failed to parse analyzer class"⟩
  | _ => .error ⟨"failed to parse analyzer name"⟩

/-- `load_analyzers` (main.rs:108-146): fold the loop body over the analyzer
definition documents read from `tipup.analyzers`, returning the final
demultiplexor (the source mutates it in place) or the first error. -/
def loadAnalyzers
    (bayesNew : List Bson → Sender Flag → Except TipupError (OrderedDocument → Invoke))
    (tx : Sender Flag) (docs : List OrderedDocument) (dm : Demultiplexor) :
    Except TipupError Demultiplexor :=
  match docs with
  | [] => .ok dm
  | d :: rest =>
    (loadAnalyzer bayesNew tx dm d).bind fun dm' => loadAnalyzers bayesNew tx rest dm'

/-- Where the startup portion of `main` ends up: panicking, or entering the
steady-state fetch loop with the loaded demultiplexor. -/
inductive StartupResult where
  | panicked : String → StartupResult
  | fetchLoop : Demultiplexor → StartupResult

/-- The startup control flow of `main` after the external connection steps
(main.rs:82-99): build an empty demultiplexor (`Demultiplexor::new`, modelled
from the spec as an empty registry), run `load_analyzers`, panic on error
(main.rs:88-90), otherwise proceed to the fetch loop (main.rs:99). -/
def mainStartup
    (bayesNew : List Bson → Sender Flag → Except TipupError (OrderedDocument → Invoke))
    (tx : Sender Flag) (docs : List OrderedDocument) : StartupResult :=
  match loadAnalyzers bayesNew tx docs ⟨[]⟩ with
  | .error e => .panicked e.msg
  | .ok dm => .fetchLoop dm

/-- MongoDB `find_one` on `tipup.last_result_seen_timestamp` with the filter
built at main.rs:158: the first document whose `hostname` field equals the
host. -/
def findOne (coll : List OrderedDocument) (h : String) : Option OrderedDocument :=
  coll.find? fun d =>
    match docGet d "hostname" with
    | some (.string s) => s == h
    | _ => false

/-- The cursor read of `fetch_results` (main.rs:157-168): a found record must
carry an `I64` `timestamp` (anything else is an error, no fallback); an
absent record yields `(false, 0)`. -/
def lastSeen (cs : List OrderedDocument) (h : String) :
    Except TipupError (Bool × Int) :=
  match findOne cs h with
  | some d =>
    match docGet d "timestamp" with
    | some (.i64 t) => .ok (true, t)
    | _ =>
      .error ⟨"failed to parse timestamp value in tipup.last_seen_result_timestamp for host " ++ h⟩
  | none => .ok (false, 0)

/-- The `timestamp` field of a result document as an integer, used as the
sort key of the fetch (documents reaching the sort all carry an `I64`
timestamp, since the query filter requires one). -/
def tsOf (d : OrderedDocument) : Int :=
  match docGet d "timestamp" with
  | some (.i64 t) => t
  | _ => 0

/-- The sort order requested at main.rs:179 (`timestamp: -1`): newest
first. -/
def byTsDesc (a b : OrderedDocument) : Prop := tsOf b ≤ tsOf a

instance : DecidableRel byTsDesc := fun a b => Int.decLe (tsOf b) (tsOf a)

instance : IsTotal OrderedDocument byTsDesc :=
  ⟨fun a b => (le_total (tsOf a) (tsOf b)).symm⟩

instance : IsTrans OrderedDocument byTsDesc :=
  ⟨fun _ _ _ hab hbc => le_trans hbc hab⟩

/-- First conjunct of the filter document built at main.rs:171-175: the
document's `hostname` field equals the host string. -/
def hostnameMatches (d : OrderedDocument) (h : String) : Bool :=
  match docGet d "hostname" with
  | some (.string s) => s == h
  | _ => false

/-- Second conjunct of the filter document built at main.rs:171-175: the
document's `timestamp` field is an `I64` at least the cursor value (`$gte`,
inclusive). -/
def timestampAtLeast (d : OrderedDocument) (t : Int) : Bool :=
  match docGet d "timestamp" with
  | some (.i64 ts) => decide (t ≤ ts)
  | _ => false

/-- The filter document built at main.rs:171-175: `hostname` equals the host
and `timestamp` is at least the cursor value. -/
def matchesQuery (d : OrderedDocument) (h : String) (t : Int) : Bool :=
  hostnameMatches d h && timestampAtLeast d t

/-- MongoDB `find` on `proddle.results` with the filter and find options of
main.rs:171-196: the matching documents, sorted by timestamp descending. -/
def findResults (results : List OrderedDocument) (h : String) (t : Int) :
    List OrderedDocument :=
  (results.filter fun d => matchesQuery d h t).insertionSort byTsDesc

/-- Outcome of the per-host dispatch loop, carrying the documents fed to
`send_result` in order. -/
inductive DispatchResult where
  | ok : List OrderedDocument → DispatchResult
  | panicked : String → List OrderedDocument → DispatchResult

/-- The inner cursor loop of `fetch_results` (main.rs:197-202): feed each
fetched document to `Demultiplexor::send_result`; an `Err` from it is a
`panic!` (main.rs:200), and an analyzer panic unwinds through the call. -/
def dispatchDocs (send : OrderedDocument → Invoke) :
    List OrderedDocument → DispatchResult
  | [] => .ok []
  | d :: rest =>
    match send d with
    | .ok =>
      match dispatchDocs send rest with
      | .ok ds => .ok (d :: ds)
      | .panicked m ds => .panicked m (d :: ds)
    | .err e => .panicked e.msg [d]
    | .panicked m => .panicked m [d]

/-- Outcome of a whole `fetch_results` cycle, carrying the documents fed to
`send_result` in order: a normal `Ok(())` return, an early `Err` return, or
a panic. -/
inductive CycleResult where
  | ok : List OrderedDocument → CycleResult
  | err : TipupError → List OrderedDocument → CycleResult
  | panicked : String → List OrderedDocument → CycleResult

/-- The per-host body of the `fetch_results` loop (main.rs:157-204): read the
host's cursor (an unparsable cursor record aborts the whole cycle with
`Err`), fetch the documents at or after it, dispatch each in order.  The
source ends the body with a TODO comment (main.rs:204) in place of the
cursor update; accordingly no update happens here. -/
def processHost (results cs : List OrderedDocument)
    (send : OrderedDocument → Invoke) (h : String) : CycleResult :=
  match lastSeen cs h with
  | .error e => .err e []
  | .ok (_, t) =>
    match dispatchDocs send (findResults results h t) with
    | .ok ds => .ok ds
    | .panicked m ds => .panicked m ds

/-- `fetch_results` (main.rs:148-208): iterate over the distinct `hostname`
values of `proddle.results` (the list the store's `distinct` call returns),
skipping non-string entries (main.rs:152-155), and process each host in
turn; an `Err` or panic from one host ends the cycle. -/
def fetchResults (hostnameDocs : List Bson) (results cs : List OrderedDocument)
    (send : OrderedDocument → Invoke) : CycleResult :=
  match hostnameDocs with
  | [] => .ok []
  | .string h :: rest =>
    match processHost results cs send h with
    | .ok ds =>
      match fetchResults rest results cs send with
      | .ok ds' => .ok (ds ++ ds')
      | .err e ds' => .err e (ds ++ ds')
      | .panicked m ds' => .panicked m (ds ++ ds')
    | .err e ds => .err e ds
    | .panicked m ds => .panicked m ds
  | _ :: rest => fetchResults rest results cs send

/-- A `fetch_results` cycle together with the state of the
`tipup.last_result_seen_timestamp` collection when it returns.  The source
contains no write to that collection (the update is the TODO at main.rs:204),
so the collection is returned unchanged. -/
def fetchResultsCycle (hostnameDocs : List Bson)
    (results cs : List OrderedDocument) (send : OrderedDocument → Invoke) :
    CycleResult × List OrderedDocument :=
  (fetchResults hostnameDocs results cs send, cs)

/-! ### Concrete sample data for witnesses and counterexamples -/

/-- A `send_result` stand-in that always succeeds (every routed analyzer
returns `Ok`). -/
def sendOk : OrderedDocument → Invoke := fun _ => .ok

/-- Result document of host `h1`, measurement `cpu`, timestamp 150. -/
def doc150 : OrderedDocument :=
  [("hostname", .string "h1"), ("measurement", .string "cpu"), ("timestamp", .i64 150)]

/-- Result document of host `h1`, measurement `disk`, timestamp 120. -/
def doc120 : OrderedDocument :=
  [("hostname", .string "h1"), ("measurement", .string "disk"), ("timestamp", .i64 120)]

/-- Result document of host `h1`, measurement `cpu`, timestamp 130. -/
def doc130 : OrderedDocument :=
  [("hostname", .string "h1"), ("measurement", .string "cpu"), ("timestamp", .i64 130)]

/-- The result store of the spec §8 example scenario (fetch order as
returned by the store, unsorted). -/
def resultsC1 : List OrderedDocument := [doc150, doc120, doc130]

/-- Cursor store holding a record mapping host `h1` to timestamp 100. -/
def csC1 : List OrderedDocument :=
  [[("hostname", .string "h1"), ("timestamp", .i64 100)]]

/-- Result document of host `h1` with a negative timestamp. -/
def negDoc : OrderedDocument :=
  [("hostname", .string "h1"), ("measurement", .string "cpu"), ("timestamp", .i64 (-1))]

/-- A registration whose analyzer fails on every document. -/
def failingReg : Registration :=
  ⟨"a1", "cpu", fun _ => .err ⟨"analyzer failure"⟩⟩

/-- A demultiplexor holding only the failing `cpu` analyzer. -/
def dmFailing : Demultiplexor := ⟨[failingReg]⟩

/-- A cursor record for host `h1` whose `timestamp` is not an `I64`. -/
def badRecord : OrderedDocument :=
  [("hostname", .string "h1"), ("timestamp", .boolean true)]

/-- Cursor store whose record for host `h1` carries a non-`I64`
`timestamp`. -/
def csBadRecord : List OrderedDocument := [badRecord]

/-- An analyzer definition document with an unknown `class` value. -/
def unknownClassDoc : OrderedDocument :=
  [("name", .string "a1"), ("class", .string "FooAnalyzer"),
   ("measurement", .string "cpu"), ("parameters", .array [])]

/-- A concrete stand-in for the abstract `BayesianAnalyzer::new`. -/
def bayesSample : List Bson → Sender Flag → Except TipupError (OrderedDocument → Invoke) :=
  fun _ _ => .ok fun _ => .ok

/-- A concrete flag-channel producer handle. -/
def txSample : Sender Flag := ⟨0⟩

/-! ### Helper lemmas -/

theorem hostnameMatches_iff (d : OrderedDocument) (h : String) :
    hostnameMatches d h = true ↔ docGet d "hostname" = some (.string h) := by
  rcases hH : docGet d "hostname" with _ | b
  · simp [hostnameMatches, hH]
  · cases b <;> simp [hostnameMatches, hH]

theorem timestampAtLeast_iff (d : OrderedDocument) (t : Int) :
    timestampAtLeast d t = true ↔
      ∃ ts : Int, docGet d "timestamp" = some (.i64 ts) ∧ t ≤ ts := by
  rcases hT : docGet d "timestamp" with _ | b
  · simp [timestampAtLeast, hT]
  · cases b <;> simp [timestampAtLeast, hT]

theorem matchesQuery_iff (d : OrderedDocument) (h : String) (t : Int) :
    matchesQuery d h t = true ↔
      docGet d "hostname" = some (.string h) ∧
        ∃ ts : Int, docGet d "timestamp" = some (.i64 ts) ∧ t ≤ ts := by
  rw [matchesQuery, Bool.and_eq_true, hostnameMatches_iff, timestampAtLeast_iff]

theorem mem_findResults (results : List OrderedDocument) (h : String) (t : Int)
    (d : OrderedDocument) :
    d ∈ findResults results h t ↔ d ∈ results ∧ matchesQuery d h t = true := by
  simp [findResults, List.mem_insertionSort, List.mem_filter]

theorem dispatchDocs_all_ok (send : OrderedDocument → Invoke) :
    ∀ l : List OrderedDocument, (∀ d ∈ l, send d = .ok) →
      dispatchDocs send l = .ok l := by
  intro l
  induction l with
  | nil => intro _; rfl
  | cons d rest ih =>
    intro hall
    have hd : send d = .ok := hall d (List.mem_cons_self d rest)
    have hrest := ih fun x hx => hall x (List.mem_cons_of_mem d hx)
    simp [dispatchDocs, hd, hrest]

theorem loadAnalyzer_unknown_class
    (bayesNew : List Bson → Sender Flag → Except TipupError (OrderedDocument → Invoke))
    (tx : Sender Flag) (dm : Demultiplexor) (d : OrderedDocument) (cls : String)
    (hcls : docGet d "class" = some (.string cls))
    (hb : cls ≠ "BayesianAnalyzer") (he : cls ≠ "ErrorAnalyzer") :
    ∃ e, loadAnalyzer bayesNew tx dm d = .error e := by
  unfold loadAnalyzer
  rcases hn : docGet d "name" with _ | b
  · exact ⟨_, rfl⟩
  · cases b with
    | string name =>
      rw [hcls]
      rcases hm : docGet d "measurement" with _ | bm
      · exact ⟨_, rfl⟩
      · cases bm with
        | string measurement =>
          rcases hp : docGet d "parameters" with _ | bp
          · exact ⟨_, rfl⟩
          · cases bp with
            | array parameters => simp only [if_neg hb, if_neg he]; exact ⟨_, rfl⟩
            | string s => exact ⟨_, rfl⟩
            | i64 n => exact ⟨_, rfl⟩
            | boolean bb => exact ⟨_, rfl⟩
        | i64 n => exact ⟨_, rfl⟩
        | boolean bb => exact ⟨_, rfl⟩
        | array a => exact ⟨_, rfl⟩
    | i64 n => exact ⟨_, rfl⟩
    | boolean bb => exact ⟨_, rfl⟩
    | array a => exact ⟨_, rfl⟩

theorem loadAnalyzers_ok_mem
    (bayesNew : List Bson → Sender Flag → Except TipupError (OrderedDocument → Invoke))
    (tx : Sender Flag) :
    ∀ (docs : List OrderedDocument) (dm dm' : Demultiplexor),
      loadAnalyzers bayesNew tx docs dm = .ok dm' → ∀ d ∈ docs,
        ∃ dm₁ dm₂, loadAnalyzer bayesNew tx dm₁ d = .ok dm₂ := by
  intro docs
  induction docs with
  | nil => intro dm dm' _ d hd; exact absurd hd (List.not_mem_nil d)
  | cons a rest ih =>
    intro dm dm' h d hd
    rcases hla : loadAnalyzer bayesNew tx dm a with e | dmMid
    · unfold loadAnalyzers at h
      rw [hla] at h
      exact Except.noConfusion h
    · rcases List.mem_cons.mp hd with rfl | hdrest
      · exact ⟨dm, dmMid, hla⟩
      · unfold loadAnalyzers at h
        rw [hla] at h
        exact ih dmMid dm' h d hdrest

/-! ### Claims -/

/-- C1: the spec claims that after a successful fetch+dispatch of a host's
result documents, `fetch_results` advances and persists the host's cursor to
the newest timestamp fetched that cycle.  The source never writes the cursor
(the TODO at main.rs:204): in the spec §8 scenario (cursor 100, documents at
timestamps 150, 120, 130 all delivered), the cycle succeeds yet the cursor
collection is returned unchanged and the host's cursor still reads 100,
strictly below the timestamp 150 of a delivered document. -/
theorem cursor_never_persisted :
    fetchResultsCycle [.string "h1"] resultsC1 csC1 sendOk =
      (.ok [doc150, doc130, doc120], csC1) ∧
    lastSeen csC1 "h1" = .ok (true, 100) ∧
    (100 : Int) < tsOf doc150 ∧ doc150 ∈ [doc150, doc130, doc120] :=
  ⟨rfl, rfl, by decide, List.mem_cons_self _ _⟩

/-- C2 counterexample: one registered `cpu` analyzer whose `add_result`
fails.  `send_result` reports the failure to the caller, and the fetch loop
panics on it (main.rs:200) instead of continuing — refuting the claim that
the process as a whole does not panic on a single analyzer's error. -/
theorem send_error_panics_cex :
    sendResult dmFailing doc150 = .err ⟨"analyzer failure"⟩ ∧
    fetchResults [.string "h1"] [doc150] [] (sendResult dmFailing) =
      .panicked "analyzer failure" [doc150] :=
  ⟨rfl, rfl⟩

/-- C2 amended: when a matched analyzer's `add_result` fails, the
demultiplexor reports the failure to its caller as an `Err`, but the fetch
loop then panics on that error (main.rs:199-201), aborting the process
rather than continuing. -/
theorem send_error_panics (dm : Demultiplexor) (results cs : List OrderedDocument)
    (h : String) (rest : List Bson) (flag : Bool) (t : Int)
    (d : OrderedDocument) (ds : List OrderedDocument) (e : TipupError)
    (hseen : lastSeen cs h = .ok (flag, t))
    (hfetch : findResults results h t = d :: ds)
    (hfail : sendResult dm d = .err e) :
    fetchResults (.string h :: rest) results cs (sendResult dm) =
      .panicked e.msg [d] := by
  simp [fetchResults, processHost, dispatchDocs, hseen, hfetch, hfail]

theorem send_error_panics_witness :
    fetchResults [.string "h1"] [doc150] [] (sendResult dmFailing) =
      .panicked "analyzer failure" [doc150] :=
  send_error_panics dmFailing [doc150] [] "h1" [] false 0 doc150 []
    ⟨"analyzer failure"⟩ rfl rfl rfl

/-- C3: the spec claims `ErrorAnalyzer::add_result` returns a `Result` and
never aborts the process.  Its body is `unimplemented!()`
(error_analyzer.rs:25), which panics on every invocation: the model
evaluates to a panic, not an `Ok` or `Err` return. -/
theorem add_result_panics :
    ErrorAnalyzer.add_result ⟨⟨0⟩⟩ = .panicked "not implemented" ∧
    ErrorAnalyzer.add_result ⟨⟨0⟩⟩ ≠ .ok ∧
    ∀ e, ErrorAnalyzer.add_result ⟨⟨0⟩⟩ ≠ .err e :=
  ⟨rfl, fun h => Invoke.noConfusion h, fun _ h => Invoke.noConfusion h⟩

/-- C4: the documents fetched for a host with cursor value `t` are exactly
the stored documents whose `hostname` equals the host and whose `timestamp`
is an `I64` at least `t`; in particular a document whose timestamp exactly
equals `t` is included (inclusive `$gte` bound, main.rs:171). -/
theorem fetch_selects_gte (results : List OrderedDocument) (h : String) (t : Int) :
    (∀ d, d ∈ findResults results h t ↔
        d ∈ results ∧ docGet d "hostname" = some (.string h) ∧
          ∃ ts : Int, docGet d "timestamp" = some (.i64 ts) ∧ t ≤ ts) ∧
    ∀ d ∈ results, docGet d "hostname" = some (.string h) →
      docGet d "timestamp" = some (.i64 t) → d ∈ findResults results h t := by
  constructor
  · intro d
    rw [mem_findResults, matchesQuery_iff]
  · intro d hmem hhost hts
    rw [mem_findResults, matchesQuery_iff]
    exact ⟨hmem, hhost, t, hts, le_refl t⟩

theorem fetch_selects_gte_witness :
    doc120 ∈ findResults resultsC1 "h1" 120 :=
  (fetch_selects_gte resultsC1 "h1" 120).2 doc120 (by simp [resultsC1]) rfl rfl

/-- C5: when the cursor read succeeds and every dispatched `send_result`
call returns `Ok`, the per-host loop feeds exactly the fetched documents to
`send_result`, one by one, in the fetched order, and that order is sorted by
timestamp descending (the `timestamp: -1` sort of main.rs:179). -/
theorem dispatch_order_sorted_desc (results cs : List OrderedDocument)
    (send : OrderedDocument → Invoke) (h : String) (flag : Bool) (t : Int)
    (hseen : lastSeen cs h = .ok (flag, t))
    (hsend : ∀ d ∈ findResults results h t, send d = .ok) :
    processHost results cs send h = .ok (findResults results h t) ∧
      List.Sorted byTsDesc (findResults results h t) := by
  constructor
  · simp [processHost, hseen, dispatchDocs_all_ok send _ hsend]
  · show List.Sorted byTsDesc
      ((results.filter fun d => matchesQuery d h t).insertionSort byTsDesc)
    exact List.sorted_insertionSort byTsDesc _

theorem dispatch_order_sorted_desc_witness :
    processHost resultsC1 csC1 sendOk "h1" = .ok [doc150, doc130, doc120] ∧
      List.Sorted byTsDesc [doc150, doc130, doc120] :=
  dispatch_order_sorted_desc resultsC1 csC1 sendOk "h1" true 100 rfl fun _ _ => rfl

/-- C6: an analyzer definition record whose `class` string is unknown makes
`load_analyzers` return an error — the record is not skipped (main.rs:138) —
and `main` panics on that error (main.rs:88-90), so the process never
reaches the steady-state fetch loop. -/
theorem unknown_class_fatal
    (bayesNew : List Bson → Sender Flag → Except TipupError (OrderedDocument → Invoke))
    (tx : Sender Flag) (docs : List OrderedDocument) (d : OrderedDocument) (cls : String)
    (hmem : d ∈ docs) (hcls : docGet d "class" = some (.string cls))
    (hb : cls ≠ "BayesianAnalyzer") (he : cls ≠ "ErrorAnalyzer") :
    (∀ dm : Demultiplexor, ∃ e, loadAnalyzers bayesNew tx docs dm = .error e) ∧
    ∀ dm : Demultiplexor, mainStartup bayesNew tx docs ≠ .fetchLoop dm := by
  have key : ∀ dm dm' : Demultiplexor, loadAnalyzers bayesNew tx docs dm ≠ .ok dm' := by
    intro dm dm' hok
    obtain ⟨dm₁, dm₂, hla⟩ := loadAnalyzers_ok_mem bayesNew tx docs dm dm' hok d hmem
    obtain ⟨e, herr⟩ := loadAnalyzer_unknown_class bayesNew tx dm₁ d cls hcls hb he
    rw [herr] at hla
    exact Except.noConfusion hla
  constructor
  · intro dm
    rcases hres : loadAnalyzers bayesNew tx docs dm with e | dm'
    · exact ⟨e, rfl⟩
    · exact absurd hres (key dm dm')
  · intro dm hmain
    unfold mainStartup at hmain
    rcases hres : loadAnalyzers bayesNew tx docs ⟨[]⟩ with e | dm'
    · rw [hres] at hmain
      exact StartupResult.noConfusion hmain
    · exact key ⟨[]⟩ dm' hres

theorem unknown_class_fatal_witness :
    mainStartup bayesSample txSample [unknownClassDoc] ≠ .fetchLoop ⟨[]⟩ :=
  (unknown_class_fatal bayesSample txSample [unknownClassDoc] unknownClassDoc
    "FooAnalyzer" (List.mem_singleton.mpr rfl) rfl (by decide) (by decide)).2 ⟨[]⟩

/-- C7 counterexample: host `h1` has no cursor record, so the cursor
defaults to 0 — but a result document of `h1` with timestamp -1 (a valid
`I64`) is not selected by the fetch, refuting "the fetch selects all of that
host's result documents". -/
theorem default_cursor_cex :
    lastSeen [] "h1" = .ok (false, 0) ∧
    negDoc ∈ [negDoc] ∧
    docGet negDoc "hostname" = some (.string "h1") ∧
    negDoc ∉ findResults [negDoc] "h1" 0 := by
  refine ⟨rfl, List.mem_singleton.mpr rfl, rfl, ?_⟩
  intro hmem
  rw [show findResults [negDoc] "h1" 0 = [] from rfl] at hmem
  exact List.not_mem_nil _ hmem

/-- C7 amended: for a host with no cursor record the cursor value used by
the fetch defaults to timestamp 0, so the fetch selects all of that host's
result documents with non-negative timestamps (hence all of them whenever
timestamps are non-negative). -/
theorem default_cursor_amended (cs results : List OrderedDocument) (h : String)
    (habs : findOne cs h = none) :
    lastSeen cs h = .ok (false, 0) ∧
    ∀ d ∈ results, docGet d "hostname" = some (.string h) →
      ∀ ts : Int, docGet d "timestamp" = some (.i64 ts) → 0 ≤ ts →
        d ∈ findResults results h 0 := by
  constructor
  · simp [lastSeen, habs]
  · intro d hmem hhost ts hts hpos
    rw [mem_findResults, matchesQuery_iff]
    exact ⟨hmem, hhost, ts, hts, hpos⟩

theorem default_cursor_amended_witness :
    lastSeen [] "h1" = .ok (false, 0) ∧ doc150 ∈ findResults [doc150] "h1" 0 := by
  have h := default_cursor_amended [] [doc150] "h1" rfl
  exact ⟨h.1, h.2 doc150 (List.mem_singleton.mpr rfl) rfl 150 rfl (by decide)⟩

/-- C8: if a cursor record exists for the host but its `timestamp` field is
missing or not an `I64`, the cursor read is an error (no fallback to 0), and
`fetch_results` returns that error for the whole cycle when it processes the
host (main.rs:160-168). -/
theorem bad_cursor_record_errors (cs : List OrderedDocument) (h : String)
    (d : OrderedDocument)
    (hfind : findOne cs h = some d)
    (hbad : ∀ ts : Int, docGet d "timestamp" ≠ some (.i64 ts)) :
    lastSeen cs h =
      .error ⟨"failed to parse timestamp value in tipup.last_seen_result_timestamp for host " ++ h⟩ ∧
    ∀ (results : List OrderedDocument) (send : OrderedDocument → Invoke) (rest : List Bson),
      fetchResults (.string h :: rest) results cs send =
        .err ⟨"failed to parse timestamp value in tipup.last_seen_result_timestamp for host " ++ h⟩ [] := by
  have hls : lastSeen cs h =
      .error ⟨"failed to parse timestamp value in tipup.last_seen_result_timestamp for host " ++ h⟩ := by
    simp only [lastSeen, hfind]
  refine ⟨hls, fun results send rest => ?_⟩
  simp [fetchResults, processHost, hls]

theorem bad_cursor_record_errors_witness :
    fetchResults [.string "h1"] [] csBadRecord sendOk =
      .err ⟨"failed to parse timestamp value in tipup.last_seen_result_timestamp for host h1"⟩ [] :=
  (bad_cursor_record_errors csBadRecord "h1" badRecord rfl
    (by
      intro ts hts
      rw [show docGet badRecord "timestamp" = some (Bson.boolean true) from rfl] at hts
      exact Bson.noConfusion (Option.some.inj hts))).2 [] sendOk []

/-- C9: a non-string entry in the distinct-hostname list is silently skipped
(main.rs:152-155): the cycle proceeds exactly as it would on the remaining
hostnames, with no error raised for the skipped entry. -/
theorem nonstring_hostname_skipped (hd : Bson) (rest : List Bson)
    (results cs : List OrderedDocument) (send : OrderedDocument → Invoke)
    (hnot : ∀ s, hd ≠ Bson.string s) :
    fetchResults (hd :: rest) results cs send = fetchResults rest results cs send := by
  cases hd with
  | string s => exact absurd rfl (hnot s)
  | i64 n => rfl
  | boolean b => rfl
  | array a => rfl

theorem nonstring_hostname_skipped_witness :
    fetchResults [Bson.i64 5] [] [] sendOk = fetchResults [] [] [] sendOk :=
  nonstring_hostname_skipped (Bson.i64 5) [] [] [] sendOk fun _ h => Bson.noConfusion h

/-- C10: `ErrorAnalyzer::new` never fails: for every parameter document and
every channel producer handle it returns `Ok` of an analyzer holding the
handle, ignoring the parameters entirely (error_analyzer.rs:14-20). -/
theorem error_analyzer_new_ok (p : OrderedDocument) (tx : Sender Flag) :
    ErrorAnalyzer.new p tx = .ok ⟨tx⟩ :=
  rfl

theorem error_analyzer_new_ok_witness :
    ErrorAnalyzer.new [] txSample = .ok ⟨txSample⟩ :=
  error_analyzer_new_ok [] txSample

end Tipup
